import Mathlib

/-!
Shallow embedding of the Concorde EFB SimConnect bridge
(src/simconnect-bridge/src/main.rs and src/simconnect-bridge/src/simconnect_reader.rs).

Telemetry values (f64 in the source) are modelled as rationals; the wall
clock (unix_time_ms) and the UTC time formatter (Utc::now().format) are
passed in as explicit inputs, since they are environment reads.
-/

/-- DataFrame from simconnect_reader.rs: one raw SimConnect sample. -/
structure DataFrame where
  altitude_ft : ℚ
  ias_kt : ℚ
  gs_kt : ℚ
  mach : ℚ
  vs_fpm : ℚ
  on_ground : ℚ
  eng1_on : ℚ
  eng2_on : ℚ
  eng3_on : ℚ
  eng4_on : ℚ
  fuel_total_lb : ℚ
  weight_lb : ℚ
  flightplan_total_nm : ℚ
  flightplan_remaining_nm : ℚ
deriving DecidableEq

/-- Rust Default for DataFrame: every f64 field is zero. -/
def DataFrame.default : DataFrame := ⟨0, 0, 0, 0, 0, 0, 0, 0, 0, 0, 0, 0, 0, 0⟩

/-- StateCache from simconnect_reader.rs: the private derivation state
owned by the ingestion loop. -/
@[ext]
structure StateCache where
  last_on_ground : Bool
  takeoff_roll_time_utc : Option String
  fuel_start_kg : Option ℚ
deriving DecidableEq

/-- Rust Default for StateCache: false / None / None. -/
def StateCache.default : StateCache := ⟨false, none, none⟩

/-- BridgeSnapshot from main.rs: the published flight-state record. -/
@[ext]
structure BridgeSnapshot where
  time : ℕ
  altitude_ft : Option ℚ
  ias_kt : Option ℚ
  gs_kt : Option ℚ
  mach : Option ℚ
  vs_fpm : Option ℚ
  heading_deg : Option ℚ
  lat : Option ℚ
  lon : Option ℚ
  dep_icao : Option String
  arr_icao : Option String
  flightplan_total_nm : Option ℚ
  flightplan_remaining_nm : Option ℚ
  takeoff_roll_time_utc : Option String
  phase : Option String
  next_wp_id : Option String
  touchdown_fpm : Option ℚ
  fuel_total_kg : Option ℚ
  fuel_burn_kg : Option ℚ
  weight_kg : Option ℚ
deriving DecidableEq

/-- Rust Default for BridgeSnapshot: time 0, every optional field None. -/
def BridgeSnapshot.default : BridgeSnapshot :=
  ⟨0, none, none, none, none, none, none, none, none, none, none, none, none,
    none, none, none, none, none, none, none⟩

/-- KG_PER_LB = 0.453_592_37 from simconnect_reader.rs (exact as a rational). -/
def KG_PER_LB : ℚ := 45359237 / 100000000

/-- Line 88: on_ground := frame.on_ground > 0.5. -/
def frameOnGround (f : DataFrame) : Bool := decide ((1 : ℚ) / 2 < f.on_ground)

/-- Line 89: engines_on := any per-engine combustion flag > 0.5. -/
def frameEnginesOn (f : DataFrame) : Bool :=
  decide ((1 : ℚ) / 2 < f.eng1_on) || decide ((1 : ℚ) / 2 < f.eng2_on) ||
    decide ((1 : ℚ) / 2 < f.eng3_on) || decide ((1 : ℚ) / 2 < f.eng4_on)

/-- Lines 93-95 of simconnect_reader.rs: record the engine-start fuel
baseline at most once (only when engines are on and no baseline exists). -/
def recordFuelBaseline (cache : StateCache) (engines_on : Bool) (fuel_total_kg : ℚ) :
    StateCache :=
  if engines_on && cache.fuel_start_kg.isNone then
    { cache with fuel_start_kg := some fuel_total_kg }
  else cache

/-- Lines 101-112 of simconnect_reader.rs: clear the touchdown rate on a
liftoff transition, record it on a touchdown transition. -/
def applyGroundTransition (snap : BridgeSnapshot) (last_on_ground on_ground : Bool)
    (vs_fpm : ℚ) : BridgeSnapshot :=
  let snap1 :=
    if last_on_ground && !on_ground then { snap with touchdown_fpm := none } else snap
  if !last_on_ground && on_ground then { snap1 with touchdown_fpm := some vs_fpm }
  else snap1

/-- Lines 114-116 of simconnect_reader.rs: record the takeoff-roll UTC time
at most once (on ground, ground speed above 35 kt, none recorded yet). -/
def recordTakeoffRoll (cache : StateCache) (on_ground : Bool) (gs_kt : ℚ)
    (now : String) : StateCache :=
  if on_ground && decide ((35 : ℚ) < gs_kt) && cache.takeoff_roll_time_utc.isNone then
    { cache with takeoff_roll_time_utc := some now }
  else cache

/-- Lines 118-132 of simconnect_reader.rs: the phase classification chain,
first matching rule wins. -/
def classifyPhase (engines_on on_ground : Bool) (gs_kt altitude_ft vs_fpm : ℚ) :
    String :=
  if !engines_on then "Waiting"
  else if on_ground && decide (gs_kt < 5) then "Engine Start"
  else if on_ground && decide (gs_kt < 35) then "Taxiing"
  else if on_ground then "Takeoff Roll"
  else if decide (altitude_ft < 10000) && decide ((500 : ℚ) < vs_fpm) then "Climb"
  else if decide (vs_fpm < -500) then "Descent"
  else "Cruising"

/-- update_snapshot from simconnect_reader.rs (lines 87-149): one derivation
step.  Takes the shared snapshot and the private cache, returns both updated.
The string now stands for Utc::now().format of that call. -/
def update_snapshot (snap : BridgeSnapshot) (cache : StateCache) (frame : DataFrame)
    (now : String) : BridgeSnapshot × StateCache :=
  let on_ground := frameOnGround frame
  let engines_on := frameEnginesOn frame
  let fuel_total_kg := frame.fuel_total_lb * KG_PER_LB
  let weight_kg := frame.weight_lb * KG_PER_LB
  let cache1 := recordFuelBaseline cache engines_on fuel_total_kg
  let fuel_burn_kg := cache1.fuel_start_kg.map (fun start => max (start - fuel_total_kg) 0)
  let snap1 := applyGroundTransition snap cache1.last_on_ground on_ground frame.vs_fpm
  let cache2 := recordTakeoffRoll cache1 on_ground frame.gs_kt now
  let phase := classifyPhase engines_on on_ground frame.gs_kt frame.altitude_ft frame.vs_fpm
  let cache3 := { cache2 with last_on_ground := on_ground }
  ({ snap1 with
      altitude_ft := some frame.altitude_ft,
      ias_kt := some frame.ias_kt,
      gs_kt := some frame.gs_kt,
      mach := some frame.mach,
      vs_fpm := some frame.vs_fpm,
      fuel_total_kg := some fuel_total_kg,
      fuel_burn_kg := fuel_burn_kg,
      weight_kg := some weight_kg,
      flightplan_total_nm := some frame.flightplan_total_nm,
      flightplan_remaining_nm := some frame.flightplan_remaining_nm,
      phase := some phase,
      takeoff_roll_time_utc := cache3.takeoff_roll_time_utc },
    cache3)

/-- Folding update_snapshot over a list of (frame, utc-string) samples,
as the ingestion loop does one dispatch at a time. -/
def runFrames (snap : BridgeSnapshot) (cache : StateCache) :
    List (DataFrame × String) → BridgeSnapshot × StateCache
  | [] => (snap, cache)
  | (f, now) :: rest =>
    let r := update_snapshot snap cache f now
    runFrames r.1 r.2 rest

/-- Lines 105-109 of main.rs: one broadcaster read of the store.  The code
sets guard.snapshot.time = unix_time_ms() on the shared record and then
clones it.  Returns (new store contents, the cloned copy). -/
def broadcaster_read (store : BridgeSnapshot) (now_ms : ℕ) :
    BridgeSnapshot × BridgeSnapshot :=
  let stamped := { store with time := now_ms }
  (stamped, stamped)

/-- Lines 105-116 of main.rs: a full publisher tick with a fallible encoder
standing for serde_json::to_string of the BridgeMessage wrapper.  Returns
the new store contents and the published payload (none when encoding fails,
in which case nothing is sent on the channel). -/
def publisher_tick (enc : BridgeSnapshot → Option String) (store : BridgeSnapshot)
    (now_ms : ℕ) : BridgeSnapshot × Option String :=
  let r := broadcaster_read store now_ms
  (r.1, enc r.2)

/-- The publisher loop over a list of tick clock readings: collects every
successfully encoded payload, skipping failed ticks. -/
def runPublisher (enc : BridgeSnapshot → Option String) (store : BridgeSnapshot) :
    List ℕ → BridgeSnapshot × List String
  | [] => (store, [])
  | ms :: rest =>
    let t := publisher_tick enc store ms
    let r := runPublisher enc t.1 rest
    (r.1, t.2.toList ++ r.2)

/-- One event in the life of the shared store: either the ingestion loop
processes a frame, or the broadcaster ticks with a clock reading. -/
inductive BridgeStep where
  | ingest : DataFrame → String → BridgeStep
  | tick : ℕ → BridgeStep
deriving DecidableEq

/-- The shared store plus the ingestion loop's private cache. -/
@[ext]
structure SystemState where
  snapshot : BridgeSnapshot
  cache : StateCache
deriving DecidableEq

/-- Process start: Default BridgeState and a fresh StateCache. -/
def SystemState.default : SystemState := ⟨BridgeSnapshot.default, StateCache.default⟩

/-- Apply one step to the system state. -/
def runStep (s : SystemState) : BridgeStep → SystemState
  | .ingest f now =>
    let r := update_snapshot s.snapshot s.cache f now
    ⟨r.1, r.2⟩
  | .tick ms => ⟨(broadcaster_read s.snapshot ms).1, s.cache⟩

/-- The snapshot's time field observed after each step of a run. -/
def timesAfter (s : SystemState) : List BridgeStep → List ℕ
  | [] => []
  | step :: rest =>
    let s2 := runStep s step
    s2.snapshot.time :: timesAfter s2 rest

/-- The clock readings of the tick steps, in order. -/
def tickValues : List BridgeStep → List ℕ
  | [] => []
  | .tick ms :: rest => ms :: tickValues rest
  | .ingest _ _ :: rest => tickValues rest

/-- A JSON value, used to model the serde_json wire encoding. -/
inductive Json where
  | null : Json
  | str : String → Json
  | num : ℚ → Json
  | nat : ℕ → Json
  | obj : List (String × Json) → Json

/-- serde encoding of an Option f64 field: None becomes an explicit null. -/
def jsonOfOptNum : Option ℚ → Json
  | none => Json.null
  | some q => Json.num q

/-- serde encoding of an Option String field: None becomes an explicit null. -/
def jsonOfOptStr : Option String → Json
  | none => Json.null
  | some s => Json.str s

/-- The payload fields of one BridgeSnapshot, exactly as the serde derive on
the struct in main.rs emits them: every field in declaration order, None as
an explicit null, never an omitted key. -/
def snapshotFields (s : BridgeSnapshot) : List (String × Json) :=
  [("time", Json.nat s.time),
   ("altitude_ft", jsonOfOptNum s.altitude_ft),
   ("ias_kt", jsonOfOptNum s.ias_kt),
   ("gs_kt", jsonOfOptNum s.gs_kt),
   ("mach", jsonOfOptNum s.mach),
   ("vs_fpm", jsonOfOptNum s.vs_fpm),
   ("heading_deg", jsonOfOptNum s.heading_deg),
   ("lat", jsonOfOptNum s.lat),
   ("lon", jsonOfOptNum s.lon),
   ("dep_icao", jsonOfOptStr s.dep_icao),
   ("arr_icao", jsonOfOptStr s.arr_icao),
   ("flightplan_total_nm", jsonOfOptNum s.flightplan_total_nm),
   ("flightplan_remaining_nm", jsonOfOptNum s.flightplan_remaining_nm),
   ("takeoff_roll_time_utc", jsonOfOptStr s.takeoff_roll_time_utc),
   ("phase", jsonOfOptStr s.phase),
   ("next_wp_id", jsonOfOptStr s.next_wp_id),
   ("touchdown_fpm", jsonOfOptNum s.touchdown_fpm),
   ("fuel_total_kg", jsonOfOptNum s.fuel_total_kg),
   ("fuel_burn_kg", jsonOfOptNum s.fuel_burn_kg),
   ("weight_kg", jsonOfOptNum s.weight_kg)]

/-- serde encoding of a BridgeSnapshot. -/
def snapshotJson (s : BridgeSnapshot) : Json := Json.obj (snapshotFields s)

/-- Lines 37-41 and 110-113 of main.rs: the BridgeMessage wrapper the
publisher serializes each tick, with the raw identifier r#type emitted as
the key "type" and the value "snapshot". -/
def messageJson (s : BridgeSnapshot) : Json :=
  Json.obj [("type", Json.str "snapshot"), ("payload", snapshotJson s)]

/-- The key list of a JSON object. -/
def jsonKeys : Json → List String
  | Json.obj fields => fields.map Prod.fst
  | _ => []

/-- Concrete sample: on ground, ground speed 10 kt, engine 1 running
(spec scenario 2). -/
def frameTaxi : DataFrame :=
  { DataFrame.default with gs_kt := 10, on_ground := 1, eng1_on := 1 }

/-- Concrete sample: on ground, vertical speed -300 fpm, engine 1 running
(the touchdown frame of spec scenario 4). -/
def frameTouch : DataFrame :=
  { DataFrame.default with on_ground := 1, vs_fpm := -300, eng1_on := 1 }

/-- Concrete sample: on ground, ground speed 40 kt, engine 1 running,
fuel 10000 lb (spec scenario 3). -/
def frameRoll : DataFrame :=
  { DataFrame.default with
      gs_kt := 40,
      on_ground := 1,
      eng1_on := 1,
      fuel_total_lb := 10000 }

/-- Concrete sample: airborne at 5000 ft, vertical speed +800 fpm, engine 1
running (the climb frame of spec scenario 4). -/
def frameClimb : DataFrame :=
  { DataFrame.default with altitude_ft := 5000, vs_fpm := 800, eng1_on := 1 }

/-- Concrete cache state in which both one-shot markers are already set. -/
def cacheSet : StateCache := ⟨true, some "09:00Z", some 4535⟩

/-! ### Projection lemmas for the derivation stages -/

theorem recordFuelBaseline_last (c : StateCache) (e : Bool) (k : ℚ) :
    (recordFuelBaseline c e k).last_on_ground = c.last_on_ground := by
  unfold recordFuelBaseline; split <;> rfl

theorem recordFuelBaseline_takeoff (c : StateCache) (e : Bool) (k : ℚ) :
    (recordFuelBaseline c e k).takeoff_roll_time_utc = c.takeoff_roll_time_utc := by
  unfold recordFuelBaseline; split <;> rfl

theorem recordFuelBaseline_fuel_some (c : StateCache) (e : Bool) (k b : ℚ)
    (h : c.fuel_start_kg = some b) :
    (recordFuelBaseline c e k).fuel_start_kg = some b := by
  simp [recordFuelBaseline, h]

theorem recordFuelBaseline_none_on (c : StateCache) (e : Bool) (k : ℚ)
    (h : c.fuel_start_kg = none) (he : e = true) :
    (recordFuelBaseline c e k).fuel_start_kg = some k := by
  simp [recordFuelBaseline, h, he]

theorem recordFuelBaseline_none_off (c : StateCache) (e : Bool) (k : ℚ)
    (h : c.fuel_start_kg = none) (he : e = false) :
    (recordFuelBaseline c e k).fuel_start_kg = none := by
  simp [recordFuelBaseline, h, he]

theorem recordTakeoffRoll_fuel (c : StateCache) (g : Bool) (gs : ℚ) (now : String) :
    (recordTakeoffRoll c g gs now).fuel_start_kg = c.fuel_start_kg := by
  unfold recordTakeoffRoll; split <;> rfl

theorem recordTakeoffRoll_last (c : StateCache) (g : Bool) (gs : ℚ) (now : String) :
    (recordTakeoffRoll c g gs now).last_on_ground = c.last_on_ground := by
  unfold recordTakeoffRoll; split <;> rfl

theorem recordTakeoffRoll_some (c : StateCache) (g : Bool) (gs : ℚ) (now t : String)
    (h : c.takeoff_roll_time_utc = some t) :
    (recordTakeoffRoll c g gs now).takeoff_roll_time_utc = some t := by
  simp [recordTakeoffRoll, h]

theorem recordTakeoffRoll_set (c : StateCache) (g : Bool) (gs : ℚ) (now : String)
    (h : c.takeoff_roll_time_utc = none) (hg : g = true) (h35 : (35 : ℚ) < gs) :
    (recordTakeoffRoll c g gs now).takeoff_roll_time_utc = some now := by
  simp [recordTakeoffRoll, h, hg, h35]

theorem applyGroundTransition_time (s : BridgeSnapshot) (l o : Bool) (v : ℚ) :
    (applyGroundTransition s l o v).time = s.time := by
  unfold applyGroundTransition; dsimp only; split <;> split <;> rfl

theorem applyGroundTransition_lift (s : BridgeSnapshot) (l o : Bool) (v : ℚ)
    (hl : l = true) (ho : o = false) :
    (applyGroundTransition s l o v).touchdown_fpm = none := by
  simp [applyGroundTransition, hl, ho]

theorem applyGroundTransition_touch (s : BridgeSnapshot) (l o : Bool) (v : ℚ)
    (hl : l = false) (ho : o = true) :
    (applyGroundTransition s l o v).touchdown_fpm = some v := by
  simp [applyGroundTransition, hl, ho]

theorem applyGroundTransition_same (s : BridgeSnapshot) (l o : Bool) (v : ℚ)
    (h : l = o) : applyGroundTransition s l o v = s := by
  subst h; simp [applyGroundTransition]

/-! ### Projections of one full derivation step -/

theorem update_snapshot_phase (snap : BridgeSnapshot) (cache : StateCache)
    (frame : DataFrame) (now : String) :
    (update_snapshot snap cache frame now).1.phase =
      some (classifyPhase (frameEnginesOn frame) (frameOnGround frame)
        frame.gs_kt frame.altitude_ft frame.vs_fpm) := rfl

theorem update_snapshot_touchdown (snap : BridgeSnapshot) (cache : StateCache)
    (frame : DataFrame) (now : String) :
    (update_snapshot snap cache frame now).1.touchdown_fpm =
      (applyGroundTransition snap
        (recordFuelBaseline cache (frameEnginesOn frame)
          (frame.fuel_total_lb * KG_PER_LB)).last_on_ground
        (frameOnGround frame) frame.vs_fpm).touchdown_fpm := rfl

theorem update_snapshot_cache_takeoff (snap : BridgeSnapshot) (cache : StateCache)
    (frame : DataFrame) (now : String) :
    (update_snapshot snap cache frame now).2.takeoff_roll_time_utc =
      (recordTakeoffRoll
        (recordFuelBaseline cache (frameEnginesOn frame)
          (frame.fuel_total_lb * KG_PER_LB))
        (frameOnGround frame) frame.gs_kt now).takeoff_roll_time_utc := rfl

theorem update_snapshot_cache_fuel (snap : BridgeSnapshot) (cache : StateCache)
    (frame : DataFrame) (now : String) :
    (update_snapshot snap cache frame now).2.fuel_start_kg =
      (recordFuelBaseline cache (frameEnginesOn frame)
        (frame.fuel_total_lb * KG_PER_LB)).fuel_start_kg :=
  recordTakeoffRoll_fuel _ _ _ _

theorem update_snapshot_fuel_burn (snap : BridgeSnapshot) (cache : StateCache)
    (frame : DataFrame) (now : String) :
    (update_snapshot snap cache frame now).1.fuel_burn_kg =
      (recordFuelBaseline cache (frameEnginesOn frame)
        (frame.fuel_total_lb * KG_PER_LB)).fuel_start_kg.map
        (fun start => max (start - frame.fuel_total_lb * KG_PER_LB) 0) := rfl

theorem update_snapshot_time (snap : BridgeSnapshot) (cache : StateCache)
    (frame : DataFrame) (now : String) :
    (update_snapshot snap cache frame now).1.time = snap.time :=
  applyGroundTransition_time snap _ _ _

/-! ### C1: phase classification -/

/-- C1: for every frame, the derived phase label is determined by the first
matching rule in this exact order: engines not running gives "Waiting"; on
ground with ground speed < 5 kt gives "Engine Start"; on ground with ground
speed < 35 kt gives "Taxiing"; on ground otherwise gives "Takeoff Roll";
airborne with altitude < 10000 ft and vertical speed > 500 fpm gives
"Climb"; airborne with vertical speed < -500 fpm gives "Descent"; otherwise
"Cruising" (on-ground means ground-contact flag > 0.5, engines running
means some per-engine combustion flag > 0.5). -/
theorem C1_phase_first_match (snap : BridgeSnapshot) (cache : StateCache)
    (frame : DataFrame) (now : String) :
    (frameEnginesOn frame = false →
      (update_snapshot snap cache frame now).1.phase = some "Waiting") ∧
    (frameEnginesOn frame = true → frameOnGround frame = true →
      frame.gs_kt < 5 →
      (update_snapshot snap cache frame now).1.phase = some "Engine Start") ∧
    (frameEnginesOn frame = true → frameOnGround frame = true →
      ¬ frame.gs_kt < 5 → frame.gs_kt < 35 →
      (update_snapshot snap cache frame now).1.phase = some "Taxiing") ∧
    (frameEnginesOn frame = true → frameOnGround frame = true →
      ¬ frame.gs_kt < 35 →
      (update_snapshot snap cache frame now).1.phase = some "Takeoff Roll") ∧
    (frameEnginesOn frame = true → frameOnGround frame = false →
      frame.altitude_ft < 10000 → (500 : ℚ) < frame.vs_fpm →
      (update_snapshot snap cache frame now).1.phase = some "Climb") ∧
    (frameEnginesOn frame = true → frameOnGround frame = false →
      ¬ (frame.altitude_ft < 10000 ∧ (500 : ℚ) < frame.vs_fpm) →
      frame.vs_fpm < -500 →
      (update_snapshot snap cache frame now).1.phase = some "Descent") ∧
    (frameEnginesOn frame = true → frameOnGround frame = false →
      ¬ (frame.altitude_ft < 10000 ∧ (500 : ℚ) < frame.vs_fpm) →
      ¬ frame.vs_fpm < -500 →
      (update_snapshot snap cache frame now).1.phase = some "Cruising") := by
  refine ⟨fun he => ?_, fun he hg h5 => ?_, fun he hg h5 h35 => ?_,
    fun he hg h35 => ?_, fun he hg halt hvs => ?_, fun he hg hcl hvs => ?_,
    fun he hg hcl hvs => ?_⟩ <;>
    rw [update_snapshot_phase]
  · simp [classifyPhase, he]
  · simp [classifyPhase, he, hg, h5]
  · simp [classifyPhase, he, hg, h5, h35]
  · have h5 : ¬ frame.gs_kt < 5 := fun hh => h35 (hh.trans (by norm_num))
    simp [classifyPhase, he, hg, h5, h35]
  · simp [classifyPhase, he, hg, halt, hvs]
  · rcases not_and_or.mp hcl with h | h <;>
      simp [classifyPhase, he, hg, h, hvs]
  · rcases not_and_or.mp hcl with h | h <;>
      simp [classifyPhase, he, hg, h, hvs]

/-- Witness for C1: spec scenario 2, a frame on ground at 10 kt with an
engine running classifies as "Taxiing". -/
theorem C1_phase_first_match_witness :
    (update_snapshot BridgeSnapshot.default StateCache.default frameTaxi
      "00:00Z").1.phase = some "Taxiing" := by
  have h := C1_phase_first_match BridgeSnapshot.default StateCache.default
    frameTaxi "00:00Z"
  exact h.2.2.1 (by norm_num [frameEnginesOn, frameTaxi, DataFrame.default])
    (by norm_num [frameOnGround, frameTaxi, DataFrame.default])
    (by norm_num [frameTaxi, DataFrame.default])
    (by norm_num [frameTaxi, DataFrame.default])

/-! ### C3: touchdown vertical speed transitions -/

/-- C3: the touchdown vertical-speed field is cleared exactly when the
previous ground state was on-ground and the current frame is airborne, is
set to the current frame's vertical-speed reading exactly when the previous
state was airborne and the current frame is on-ground, and is left
unchanged by every frame that does not change the ground state. -/
theorem C3_touchdown_transitions (snap : BridgeSnapshot) (cache : StateCache)
    (frame : DataFrame) (now : String) :
    (cache.last_on_ground = true → frameOnGround frame = false →
      (update_snapshot snap cache frame now).1.touchdown_fpm = none) ∧
    (cache.last_on_ground = false → frameOnGround frame = true →
      (update_snapshot snap cache frame now).1.touchdown_fpm = some frame.vs_fpm) ∧
    (cache.last_on_ground = frameOnGround frame →
      (update_snapshot snap cache frame now).1.touchdown_fpm = snap.touchdown_fpm) := by
  refine ⟨fun hl ho => ?_, fun hl ho => ?_, fun hlo => ?_⟩ <;>
    rw [update_snapshot_touchdown, recordFuelBaseline_last]
  · exact applyGroundTransition_lift snap _ _ _ hl ho
  · exact applyGroundTransition_touch snap _ _ _ hl ho
  · rw [applyGroundTransition_same snap _ _ _ hlo]

/-- Witness for C3: from a previously-airborne state, the touchdown frame of
spec scenario 4 records -300 fpm as the touchdown rate. -/
theorem C3_touchdown_transitions_witness :
    (update_snapshot BridgeSnapshot.default StateCache.default frameTouch
      "00:00Z").1.touchdown_fpm = some frameTouch.vs_fpm := by
  have h := C3_touchdown_transitions BridgeSnapshot.default StateCache.default
    frameTouch "00:00Z"
  exact h.2.1 rfl (by norm_num [frameOnGround, frameTouch, DataFrame.default])

/-! ### C10: spurious touchdown on the first ground frame -/

/-- C10: from the initial (default) derivation state, whose remembered
ground state is airborne, processing a first frame whose ground-contact
flag is set records that frame's vertical speed as the touchdown vertical
speed: an aircraft that starts already parked on the ground gets a spurious
touchdown rate on its first frame. -/
theorem C10_spurious_first_frame_touchdown (snap : BridgeSnapshot)
    (frame : DataFrame) (now : String) (h : (1 : ℚ) / 2 < frame.on_ground) :
    (update_snapshot snap StateCache.default frame now).1.touchdown_fpm =
      some frame.vs_fpm := by
  have hg : frameOnGround frame = true := decide_eq_true h
  rw [update_snapshot_touchdown, recordFuelBaseline_last]
  exact applyGroundTransition_touch snap _ _ _ rfl hg

/-- Witness for C10: a first frame parked on the ground with zero vertical
speed still publishes a touchdown rate of 0 fpm. -/
theorem C10_spurious_first_frame_touchdown_witness :
    (update_snapshot BridgeSnapshot.default StateCache.default
      { DataFrame.default with on_ground := 1 } "00:00Z").1.touchdown_fpm =
      some ({ DataFrame.default with on_ground := 1 } : DataFrame).vs_fpm :=
  C10_spurious_first_frame_touchdown BridgeSnapshot.default
    { DataFrame.default with on_ground := 1 } "00:00Z"
    (by norm_num [DataFrame.default])

/-! ### Per-step preservation lemmas and runs -/

theorem update_snapshot_takeoff_preserved (snap : BridgeSnapshot) (cache : StateCache)
    (frame : DataFrame) (now t : String)
    (h : cache.takeoff_roll_time_utc = some t) :
    (update_snapshot snap cache frame now).2.takeoff_roll_time_utc = some t := by
  rw [update_snapshot_cache_takeoff]
  exact recordTakeoffRoll_some _ _ _ _ _
    (by rw [recordFuelBaseline_takeoff]; exact h)

theorem update_snapshot_fuel_preserved (snap : BridgeSnapshot) (cache : StateCache)
    (frame : DataFrame) (now : String) (b : ℚ)
    (h : cache.fuel_start_kg = some b) :
    (update_snapshot snap cache frame now).2.fuel_start_kg = some b := by
  rw [update_snapshot_cache_fuel]
  exact recordFuelBaseline_fuel_some _ _ _ _ h

theorem runFrames_takeoff_preserved (fs : List (DataFrame × String)) :
    ∀ (snap : BridgeSnapshot) (cache : StateCache) (t : String),
      cache.takeoff_roll_time_utc = some t →
      (runFrames snap cache fs).2.takeoff_roll_time_utc = some t := by
  induction fs with
  | nil => intro snap cache t h; exact h
  | cons p rest ih =>
    intro snap cache t h
    obtain ⟨f, now⟩ := p
    exact ih _ _ t (update_snapshot_takeoff_preserved snap cache f now t h)

theorem runFrames_fuel_preserved (fs : List (DataFrame × String)) :
    ∀ (snap : BridgeSnapshot) (cache : StateCache) (b : ℚ),
      cache.fuel_start_kg = some b →
      (runFrames snap cache fs).2.fuel_start_kg = some b := by
  induction fs with
  | nil => intro snap cache b h; exact h
  | cons p rest ih =>
    intro snap cache b h
    obtain ⟨f, now⟩ := p
    exact ih _ _ b (update_snapshot_fuel_preserved snap cache f now b h)

/-! ### C2: fuel baseline and fuel burn -/

/-- C2: the fuel baseline is recorded (as the current fuel mass converted to
kilograms at 1 lb = 0.45359237 kg) on a frame where some engine is running
and no baseline exists yet; it is preserved once set; the published fuel
burn equals max(0, baseline - current fuel mass) whenever a baseline
exists, hence is never negative; and while no baseline exists the fuel
burn is absent. -/
theorem C2_fuel_baseline_and_burn (snap : BridgeSnapshot) (cache : StateCache)
    (frame : DataFrame) (now : String) :
    (cache.fuel_start_kg = none → frameEnginesOn frame = true →
      (update_snapshot snap cache frame now).2.fuel_start_kg =
        some (frame.fuel_total_lb * KG_PER_LB)) ∧
    (∀ b : ℚ, cache.fuel_start_kg = some b →
      (update_snapshot snap cache frame now).2.fuel_start_kg = some b) ∧
    (cache.fuel_start_kg = none → frameEnginesOn frame = false →
      (update_snapshot snap cache frame now).2.fuel_start_kg = none ∧
      (update_snapshot snap cache frame now).1.fuel_burn_kg = none) ∧
    (∀ b : ℚ, (update_snapshot snap cache frame now).2.fuel_start_kg = some b →
      (update_snapshot snap cache frame now).1.fuel_burn_kg =
        some (max (b - frame.fuel_total_lb * KG_PER_LB) 0)) ∧
    (∀ x : ℚ, (update_snapshot snap cache frame now).1.fuel_burn_kg = some x →
      0 ≤ x) := by
  refine ⟨fun h he => ?_, fun b hb => ?_, fun h he => ?_, fun b hb => ?_,
    fun x hx => ?_⟩
  · rw [update_snapshot_cache_fuel]
    exact recordFuelBaseline_none_on _ _ _ h he
  · exact update_snapshot_fuel_preserved snap cache frame now b hb
  · have hnone := recordFuelBaseline_none_off cache (frameEnginesOn frame)
      (frame.fuel_total_lb * KG_PER_LB) h he
    refine ⟨?_, ?_⟩
    · rw [update_snapshot_cache_fuel, hnone]
    · rw [update_snapshot_fuel_burn, hnone]; rfl
  · rw [update_snapshot_cache_fuel] at hb
    rw [update_snapshot_fuel_burn, hb]
    rfl
  · rw [update_snapshot_fuel_burn] at hx
    rcases Option.map_eq_some'.mp hx with ⟨a, _, hax⟩
    rw [← hax]
    exact le_max_right _ _

/-- Witness for C2: a first engines-on frame with 10000 lb of fuel records a
baseline of 10000 * KG_PER_LB kilograms. -/
theorem C2_fuel_baseline_and_burn_witness :
    (update_snapshot BridgeSnapshot.default StateCache.default frameRoll
      "12:00Z").2.fuel_start_kg = some (frameRoll.fuel_total_lb * KG_PER_LB) := by
  have h := C2_fuel_baseline_and_burn BridgeSnapshot.default StateCache.default
    frameRoll "12:00Z"
  exact h.1 rfl (by norm_num [frameEnginesOn, frameRoll, DataFrame.default])

/-! ### C4: one-shot markers are never cleared or overwritten -/

/-- C4: the fuel baseline and takeoff-roll timestamp are each set at most
once and never cleared or overwritten within a flight: once either is
recorded, no later sequence of frames changes it (even if ground speed
drops below 35 kt and rises again), and the takeoff-roll timestamp is
recorded exactly when on-ground with ground speed above 35 kt and none
recorded yet. -/
theorem C4_set_once_never_cleared (snap : BridgeSnapshot) (cache : StateCache) :
    (∀ (fs : List (DataFrame × String)) (t : String),
      cache.takeoff_roll_time_utc = some t →
      (runFrames snap cache fs).2.takeoff_roll_time_utc = some t) ∧
    (∀ (fs : List (DataFrame × String)) (b : ℚ),
      cache.fuel_start_kg = some b →
      (runFrames snap cache fs).2.fuel_start_kg = some b) ∧
    (∀ (frame : DataFrame) (now : String),
      cache.takeoff_roll_time_utc = none → frameOnGround frame = true →
      (35 : ℚ) < frame.gs_kt →
      (update_snapshot snap cache frame now).2.takeoff_roll_time_utc = some now) := by
  refine ⟨fun fs t h => runFrames_takeoff_preserved fs snap cache t h,
    fun fs b h => runFrames_fuel_preserved fs snap cache b h,
    fun frame now h hg h35 => ?_⟩
  rw [update_snapshot_cache_takeoff]
  exact recordTakeoffRoll_set _ _ _ _
    (by rw [recordFuelBaseline_takeoff]; exact h) hg h35

/-- Witness for C4: with both markers already set, a later slow taxi frame
(ground speed 10 kt, below the 35 kt threshold) leaves the takeoff-roll
timestamp untouched. -/
theorem C4_set_once_never_cleared_witness :
    (runFrames BridgeSnapshot.default cacheSet
      [(frameTaxi, "10:00Z")]).2.takeoff_roll_time_utc = some "09:00Z" := by
  have h := C4_set_once_never_cleared BridgeSnapshot.default cacheSet
  exact h.1 [(frameTaxi, "10:00Z")] "09:00Z" rfl

/-! ### C5: writer discipline of the snapshot store -/

/-- C5 counterexample: a broadcaster tick does NOT leave the shared snapshot
record unmodified: lines 105-109 of main.rs assign unix_time_ms() to the
time field of the store itself before cloning.  Concretely, ticking the
default store at clock value 5 changes the stored record. -/
theorem C5_counterexample :
    (broadcaster_read BridgeSnapshot.default 5).1 ≠ BridgeSnapshot.default := by
  intro h
  have h5 : (5 : ℕ) = 0 := congrArg BridgeSnapshot.time h
  exact absurd h5 (by decide)

/-- C5 amended: the publisher's tick writes exactly the time field of the
shared snapshot record (stamping it with the sampled clock) and publishes
that same stamped record; the ingestion loop writes every derived field but
never the time field. -/
theorem C5_amended_writer_discipline (store snap : BridgeSnapshot)
    (cache : StateCache) (frame : DataFrame) (now : String) (ms : ℕ) :
    (broadcaster_read store ms).1 = { store with time := ms } ∧
    (broadcaster_read store ms).2 = (broadcaster_read store ms).1 ∧
    (update_snapshot snap cache frame now).1.time = snap.time :=
  ⟨rfl, rfl, update_snapshot_time snap cache frame now⟩

/-! ### C6: timestamp monotonicity across writes -/

/-- C6: across consecutive writes within one process lifetime, the
snapshot's time field is monotonically non-decreasing: ingestion writes
never change it, each broadcaster tick sets it to the sampled wall clock,
so whenever the sampled clock readings are non-decreasing (starting from
the stored value), the stored timestamp is non-decreasing across every
write of the run. -/
theorem C6_time_monotone (steps : List BridgeStep) (s : SystemState)
    (h : List.Chain' (· ≤ ·) (s.snapshot.time :: tickValues steps)) :
    List.Chain' (· ≤ ·) (s.snapshot.time :: timesAfter s steps) := by
  induction steps generalizing s with
  | nil => simp [timesAfter]
  | cons step rest ih =>
    cases step with
    | ingest f now =>
      have ht : (runStep s (BridgeStep.ingest f now)).snapshot.time
          = s.snapshot.time := update_snapshot_time _ _ _ _
      have h2 : List.Chain' (· ≤ ·)
          ((runStep s (BridgeStep.ingest f now)).snapshot.time ::
            tickValues rest) := by
        rw [ht]; simpa [tickValues] using h
      have hrest := ih (runStep s (BridgeStep.ingest f now)) h2
      simp only [timesAfter]
      exact List.chain'_cons.mpr ⟨le_of_eq ht.symm, hrest⟩
    | tick ms =>
      have hsplit := List.chain'_cons.mp (by simpa [tickValues] using h)
      have ht : (runStep s (BridgeStep.tick ms)).snapshot.time = ms := rfl
      have h2 : List.Chain' (· ≤ ·)
          ((runStep s (BridgeStep.tick ms)).snapshot.time :: tickValues rest) := by
        rw [ht]; exact hsplit.2
      have hrest := ih (runStep s (BridgeStep.tick ms)) h2
      simp only [timesAfter]
      exact List.chain'_cons.mpr ⟨le_of_le_of_eq hsplit.1 ht.symm, hrest⟩

/-- Witness for C6: a run of two ticks with clocks 100 then 200 around one
ingested frame yields non-decreasing stored timestamps. -/
theorem C6_time_monotone_witness :
    List.Chain' (· ≤ ·) (SystemState.default.snapshot.time ::
      timesAfter SystemState.default
        [BridgeStep.tick 100, BridgeStep.ingest frameTaxi "10:00Z",
          BridgeStep.tick 200]) :=
  C6_time_monotone _ SystemState.default
    (by simp [tickValues, SystemState.default, BridgeSnapshot.default,
      List.chain'_cons])

/-! ### C8: serialization failure skips the tick -/

/-- C8: if serializing the snapshot fails on a publisher tick, that tick is
skipped (nothing is published on the broadcast channel for it) and the
failure is not fatal: the published stream of a run is the per-tick
successful encodings in order, and the resulting store contents do not
depend on the serialization outcomes at all. -/
theorem C8_serialization_failure_skips_tick
    (enc enc2 : BridgeSnapshot → Option String) (store : BridgeSnapshot)
    (ms : ℕ) (ticks : List ℕ) :
    (enc { store with time := ms } = none →
      (publisher_tick enc store ms).2 = none) ∧
    ((runPublisher enc store (ms :: ticks)).2 =
      (enc { store with time := ms }).toList ++
        (runPublisher enc { store with time := ms } ticks).2) ∧
    ((runPublisher enc store ticks).1 = (runPublisher enc2 store ticks).1) := by
  refine ⟨fun h => h, rfl, ?_⟩
  induction ticks generalizing store with
  | nil => rfl
  | cons t rest ih => exact ih { store with time := t }

/-- Witness for C8: an encoder that always fails publishes nothing on its
tick. -/
theorem C8_serialization_failure_skips_tick_witness :
    (publisher_tick (fun _ => none) BridgeSnapshot.default 5).2 = none := by
  have h := C8_serialization_failure_skips_tick (fun _ => none) (fun _ => none)
    BridgeSnapshot.default 5 []
  exact h.1 rfl

/-! ### Idempotence helpers -/

theorem recordFuelBaseline_of_some (c : StateCache) (e : Bool) (k b : ℚ)
    (h : c.fuel_start_kg = some b) : recordFuelBaseline c e k = c := by
  simp [recordFuelBaseline, h]

theorem recordTakeoffRoll_idem (c : StateCache) (g : Bool) (gs : ℚ)
    (n1 n2 : String) :
    recordTakeoffRoll (recordTakeoffRoll c g gs n1) g gs n2 =
      recordTakeoffRoll c g gs n1 := by
  cases h : g && decide ((35 : ℚ) < gs) && c.takeoff_roll_time_utc.isNone <;>
    simp [recordTakeoffRoll, h]

theorem recordTakeoffRoll_last_irrel (c : StateCache) (x g : Bool) (gs : ℚ)
    (n : String) :
    recordTakeoffRoll { c with last_on_ground := x } g gs n =
      { recordTakeoffRoll c g gs n with last_on_ground := x } := by
  cases h : g && decide ((35 : ℚ) < gs) && c.takeoff_roll_time_utc.isNone <;>
    simp [recordTakeoffRoll, h]

/-! ### C7: idempotence of the derivation step -/

/-- C7: with engines already running and the fuel baseline already set,
processing the same frame twice in a row produces an identical snapshot
fragment (all derived fields equal) and identical derivation state both
times; in particular everything except the publisher-stamped timestamp
coincides. -/
theorem C7_idempotent_step (snap : BridgeSnapshot) (cache : StateCache)
    (frame : DataFrame) (now1 now2 : String) (b : ℚ)
    (he : frameEnginesOn frame = true)
    (hb : cache.fuel_start_kg = some b) :
    update_snapshot (update_snapshot snap cache frame now1).1
        (update_snapshot snap cache frame now1).2 frame now2 =
      update_snapshot snap cache frame now1 := by
  have hc1 : recordFuelBaseline cache (frameEnginesOn frame)
      (frame.fuel_total_lb * KG_PER_LB) = cache :=
    recordFuelBaseline_of_some _ _ _ b hb
  have hfuel12 : (update_snapshot snap cache frame now1).2.fuel_start_kg = some b := by
    rw [update_snapshot_cache_fuel, hc1]; exact hb
  have hc1' : recordFuelBaseline (update_snapshot snap cache frame now1).2
      (frameEnginesOn frame) (frame.fuel_total_lb * KG_PER_LB) =
      (update_snapshot snap cache frame now1).2 :=
    recordFuelBaseline_of_some _ _ _ b hfuel12
  have hr12 : (update_snapshot snap cache frame now1).2 =
      { recordTakeoffRoll cache (frameOnGround frame) frame.gs_kt now1 with
        last_on_ground := frameOnGround frame } := by
    show ({ recordTakeoffRoll (recordFuelBaseline cache (frameEnginesOn frame)
        (frame.fuel_total_lb * KG_PER_LB)) (frameOnGround frame) frame.gs_kt now1 with
      last_on_ground := frameOnGround frame } : StateCache) = _
    rw [hc1]
  have hsame : applyGroundTransition (update_snapshot snap cache frame now1).1
      (update_snapshot snap cache frame now1).2.last_on_ground
      (frameOnGround frame) frame.vs_fpm =
      (update_snapshot snap cache frame now1).1 :=
    applyGroundTransition_same _ _ _ _ rfl
  have hcache : ({ recordTakeoffRoll (update_snapshot snap cache frame now1).2
      (frameOnGround frame) frame.gs_kt now2 with
      last_on_ground := frameOnGround frame } : StateCache) =
      (update_snapshot snap cache frame now1).2 := by
    rw [hr12, recordTakeoffRoll_last_irrel, recordTakeoffRoll_idem]
  have htake : (recordTakeoffRoll (update_snapshot snap cache frame now1).2
      (frameOnGround frame) frame.gs_kt now2).takeoff_roll_time_utc =
      (update_snapshot snap cache frame now1).2.takeoff_roll_time_utc := by
    rw [hr12, recordTakeoffRoll_last_irrel, recordTakeoffRoll_idem]
  rw [update_snapshot]
  dsimp only
  rw [hc1', hsame, hfuel12, hcache, htake]
  rw [update_snapshot]
  dsimp only
  rw [hc1, hb]

/-- Witness for C7: feeding the same taxi frame twice from a state with
baseline set and engines on reproduces the identical result. -/
theorem C7_idempotent_step_witness :
    update_snapshot
        (update_snapshot BridgeSnapshot.default cacheSet frameTaxi "10:00Z").1
        (update_snapshot BridgeSnapshot.default cacheSet frameTaxi "10:00Z").2
        frameTaxi "10:01Z" =
      update_snapshot BridgeSnapshot.default cacheSet frameTaxi "10:00Z" :=
  C7_idempotent_step BridgeSnapshot.default cacheSet frameTaxi "10:00Z" "10:01Z"
    4535 (by norm_num [frameEnginesOn, frameTaxi, DataFrame.default]) rfl

/-! ### C9: wire format of published messages -/

/-- C9: every published message serializes as a single object of the form
with key "type" mapped to "snapshot" and key "payload" mapped to the
snapshot, whose payload carries exactly the BridgeSnapshot field names in
declaration order, and every absent field appears as an explicit null value
rather than an omitted key. -/
theorem C9_wire_format (s : BridgeSnapshot) :
    messageJson s = Json.obj
      [("type", Json.str "snapshot"), ("payload", Json.obj (snapshotFields s))] ∧
    jsonKeys (snapshotJson s) =
      ["time", "altitude_ft", "ias_kt", "gs_kt", "mach", "vs_fpm", "heading_deg", "lat", "lon", "dep_icao", "arr_icao", "flightplan_total_nm", "flightplan_remaining_nm", "takeoff_roll_time_utc", "phase", "next_wp_id", "touchdown_fpm", "fuel_total_kg", "fuel_burn_kg", "weight_kg"] ∧
    (s.altitude_ft = none → ("altitude_ft", Json.null) ∈ snapshotFields s) ∧
    (s.ias_kt = none → ("ias_kt", Json.null) ∈ snapshotFields s) ∧
    (s.gs_kt = none → ("gs_kt", Json.null) ∈ snapshotFields s) ∧
    (s.mach = none → ("mach", Json.null) ∈ snapshotFields s) ∧
    (s.vs_fpm = none → ("vs_fpm", Json.null) ∈ snapshotFields s) ∧
    (s.heading_deg = none → ("heading_deg", Json.null) ∈ snapshotFields s) ∧
    (s.lat = none → ("lat", Json.null) ∈ snapshotFields s) ∧
    (s.lon = none → ("lon", Json.null) ∈ snapshotFields s) ∧
    (s.dep_icao = none → ("dep_icao", Json.null) ∈ snapshotFields s) ∧
    (s.arr_icao = none → ("arr_icao", Json.null) ∈ snapshotFields s) ∧
    (s.flightplan_total_nm = none → ("flightplan_total_nm", Json.null) ∈ snapshotFields s) ∧
    (s.flightplan_remaining_nm = none → ("flightplan_remaining_nm", Json.null) ∈ snapshotFields s) ∧
    (s.takeoff_roll_time_utc = none → ("takeoff_roll_time_utc", Json.null) ∈ snapshotFields s) ∧
    (s.phase = none → ("phase", Json.null) ∈ snapshotFields s) ∧
    (s.next_wp_id = none → ("next_wp_id", Json.null) ∈ snapshotFields s) ∧
    (s.touchdown_fpm = none → ("touchdown_fpm", Json.null) ∈ snapshotFields s) ∧
    (s.fuel_total_kg = none → ("fuel_total_kg", Json.null) ∈ snapshotFields s) ∧
    (s.fuel_burn_kg = none → ("fuel_burn_kg", Json.null) ∈ snapshotFields s) ∧
    (s.weight_kg = none → ("weight_kg", Json.null) ∈ snapshotFields s) := by
  refine ⟨rfl, ?_, ?_, ?_, ?_, ?_, ?_, ?_, ?_, ?_, ?_, ?_, ?_, ?_, ?_, ?_, ?_, ?_, ?_, ?_, ?_⟩
  · simp [jsonKeys, snapshotJson, snapshotFields]
  all_goals intro h
  all_goals simp [snapshotFields, jsonOfOptNum, jsonOfOptStr, h]

/-- Witness for C9: the default snapshot (all optional fields absent)
carries an explicit null for its altitude field. -/
theorem C9_wire_format_witness :
    ("altitude_ft", Json.null) ∈ snapshotFields BridgeSnapshot.default :=
  (C9_wire_format BridgeSnapshot.default).2.2.1 rfl
